import Mathlib

/-!
Verification of the EHS incident-workflow service (`src/ehs_ai`).

This file shallowly embeds the data model (`schemas.py`), the evidence
storage and analysis services (`services/evidence.py`,
`services/evidence_analyzer.py`), the notification executor
(`services/notifications.py`), the corrective-action agent's policy-context
construction (`agents/incident.py`), the workflow graph
(`workflow/incident_graph.py`) and the HTTP endpoints (`main.py`), and
proves the specified properties about them.

Conventions of the embedding:
* Python strings are Lean `String` (or `List Char` where character-level
  processing matters); byte counts are `Nat`; timestamps are `Nat`.
* Async functions returning a value or raising are `Except String α`.
* External collaborators (LLM stage calls, uuid generation, the file
  system, PIL, the vector store) are parameters of the embedded functions:
  an opaque stage call becomes a function argument, a uuid stream becomes
  `Nat → String`, the file system becomes an explicit map.
-/

/-! ## Data model, from `schemas.py` -/

/-- `IncidentReport` (schemas.py). -/
structure IncidentReport where
  title : String
  description : String
  reported_by : Option String := none
  severity_hint : Option String := none
  location : Option String := none
  time_of_incident : Option String := none
  individuals_involved : List String := []
  attachments : List String := []
  deriving DecidableEq, Repr

/-- `EvidenceItem` (schemas.py): `analysis` is `None` until analysis completes. -/
structure EvidenceItem where
  filename : String
  url : String
  size_bytes : Nat
  analysis : Option String := none
  deriving DecidableEq, Repr

/-- The `Literal["low","medium","high","critical"]` type used for severity
and risk level (schemas.py). -/
inductive Severity where
  | low | medium | high | critical
  deriving DecidableEq, Repr

/-- `IntakeSummary` (schemas.py); the `datetime` timestamp is a `Nat`. -/
structure IntakeSummary where
  narrative : String
  key_findings : List String
  injuries_or_illnesses : List String
  severity : Severity
  timestamp : Nat
  deriving DecidableEq, Repr

/-- `TriageAssessment` (schemas.py). -/
structure TriageAssessment where
  risk_level : Severity
  priority_actions : List String
  escalation_required : Bool
  escalation_channels : List String
  monitoring_plan : String
  rationale : String
  deriving DecidableEq, Repr

/-- `RootCauseAnalysis` (schemas.py). -/
structure RootCauseAnalysis where
  primary_causes : List String
  contributing_factors : List String
  uncertainty_gaps : List String
  deriving DecidableEq, Repr

/-- `PolicyReference` (schemas.py). -/
structure PolicyReference where
  title : String
  excerpt : String
  source : String
  deriving DecidableEq, Repr

/-- `CorrectiveActionPlan` (schemas.py). -/
structure CorrectiveActionPlan where
  actions : List String
  responsible_parties : List String
  due_dates : List String
  policy_references : List PolicyReference
  deriving DecidableEq, Repr

/-- `Literal["low","medium","high","urgent"]` priority on tickets (schemas.py). -/
inductive TicketPriority where
  | low | medium | high | urgent
  deriving DecidableEq, Repr

/-- `TicketRequest` (schemas.py). -/
structure TicketRequest where
  title : String
  description : String
  priority : TicketPriority
  deriving DecidableEq, Repr

/-- `EmailRequest` (schemas.py). -/
structure EmailRequest where
  recipient : String
  subject : String
  body : String
  deriving DecidableEq, Repr

/-- `NotificationPlan` (schemas.py). -/
structure NotificationPlan where
  tickets : List TicketRequest
  emails : List EmailRequest
  deriving DecidableEq, Repr

/-- `Literal["created","failed"]` status on ticket receipts (schemas.py). -/
inductive TicketStatus where
  | created | failed
  deriving DecidableEq, Repr

/-- `Literal["sent","failed"]` status on email receipts (schemas.py). -/
inductive EmailStatus where
  | sent | failed
  deriving DecidableEq, Repr

/-- `TicketReceipt` (schemas.py). -/
structure TicketReceipt where
  ticket_id : String
  status : TicketStatus
  request : TicketRequest
  deriving DecidableEq, Repr

/-- `EmailReceipt` (schemas.py). -/
structure EmailReceipt where
  recipient : String
  status : EmailStatus
  request : EmailRequest
  message_id : Option String := none
  deriving DecidableEq, Repr

/-- `NotificationResult` (schemas.py). -/
structure NotificationResult where
  plan : NotificationPlan
  tickets : List TicketReceipt
  emails : List EmailReceipt
  notes : Option String := none
  deriving DecidableEq, Repr

/-- `IncidentWorkflowReport` (schemas.py); `generated_at` is a `Nat` timestamp. -/
structure IncidentWorkflowReport where
  incident : IncidentReport
  intake : IntakeSummary
  triage : TriageAssessment
  root_cause : RootCauseAnalysis
  corrective_actions : CorrectiveActionPlan
  notifications : NotificationResult
  evidence : List EvidenceItem := []
  generated_at : Nat
  deriving DecidableEq, Repr

/-! ## NotificationService, from `services/notifications.py`

`uuid.uuid4().hex` draws are modelled as an id stream `ids : Nat → String`:
the loop over `plan.tickets` consumes `ids 0, ids 1, ...` in order, matching
one fresh uuid per iteration of the Python loop. -/

namespace NotificationService

/-- The `for ticket in plan.tickets` loop of `_create_tickets`
(notifications.py lines 21-27), with the index of the next uuid draw made
explicit. Each receipt is `TicketReceipt(ticket_id=f"TCK-...", status="created",
request=ticket)`. -/
def createTicketsFrom (ids : Nat → String) : Nat → List TicketRequest → List TicketReceipt
  | _, [] => []
  | i, t :: rest =>
      { ticket_id := "TCK-" ++ ids i, status := .created, request := t }
        :: createTicketsFrom ids (i + 1) rest

/-- `_create_tickets` (notifications.py lines 21-27). -/
def _create_tickets (ids : Nat → String) (plan : NotificationPlan) : List TicketReceipt :=
  createTicketsFrom ids 0 plan.tickets

/-- The `for email in plan.emails` loop of `_send_emails`
(notifications.py lines 29-42). Each receipt is
`EmailReceipt(recipient=email.recipient, status="sent", request=email,
message_id=f"MSG-...")`. -/
def sendEmailsFrom (ids : Nat → String) : Nat → List EmailRequest → List EmailReceipt
  | _, [] => []
  | i, e :: rest =>
      { recipient := e.recipient, status := .sent, request := e,
        message_id := some ("MSG-" ++ ids i) }
        :: sendEmailsFrom ids (i + 1) rest

/-- `_send_emails` (notifications.py lines 29-42). -/
def _send_emails (ids : Nat → String) (plan : NotificationPlan) : List EmailReceipt :=
  sendEmailsFrom ids 0 plan.emails

/-- `NotificationService.execute` (notifications.py lines 15-19):
ticket receipts, then email receipts, then the fixed notes string.
`tIds` and `mIds` are the uuid streams for ticket ids and message ids. -/
def execute (tIds mIds : Nat → String) (plan : NotificationPlan) : NotificationResult :=
  { plan := plan
    tickets := _create_tickets tIds plan
    emails := _send_emails mIds plan
    notes := some "Tickets and emails processed via stub integrations." }

theorem createTicketsFrom_length (ids : Nat → String) (i : Nat)
    (ts : List TicketRequest) : (createTicketsFrom ids i ts).length = ts.length := by
  induction ts generalizing i with
  | nil => rfl
  | cons t rest ih => simp [createTicketsFrom, ih]

theorem sendEmailsFrom_length (ids : Nat → String) (i : Nat)
    (es : List EmailRequest) : (sendEmailsFrom ids i es).length = es.length := by
  induction es generalizing i with
  | nil => rfl
  | cons e rest ih => simp [sendEmailsFrom, ih]

theorem createTicketsFrom_get (ids : Nat → String) (i : Nat)
    (ts : List TicketRequest) (j : Nat) (h : j < ts.length) :
    (createTicketsFrom ids i ts).get ⟨j, by rw [createTicketsFrom_length]; exact h⟩ =
      { ticket_id := "TCK-" ++ ids (i + j), status := .created, request := ts.get ⟨j, h⟩ } := by
  induction ts generalizing i j with
  | nil => exact absurd h (by simp)
  | cons t rest ih =>
      cases j with
      | zero => simp [createTicketsFrom]
      | succ j =>
          have h' : j < rest.length := by simpa using Nat.lt_of_succ_lt_succ h
          have := ih (i + 1) j h'
          simpa [createTicketsFrom, Nat.add_assoc, Nat.add_comm 1 j] using this

theorem sendEmailsFrom_get (ids : Nat → String) (i : Nat)
    (es : List EmailRequest) (j : Nat) (h : j < es.length) :
    (sendEmailsFrom ids i es).get ⟨j, by rw [sendEmailsFrom_length]; exact h⟩ =
      { recipient := (es.get ⟨j, h⟩).recipient, status := .sent,
        request := es.get ⟨j, h⟩, message_id := some ("MSG-" ++ ids (i + j)) } := by
  induction es generalizing i j with
  | nil => exact absurd h (by simp)
  | cons e rest ih =>
      cases j with
      | zero => simp [sendEmailsFrom]
      | succ j =>
          have h' : j < rest.length := by simpa using Nat.lt_of_succ_lt_succ h
          have := ih (i + 1) j h'
          simpa [sendEmailsFrom, Nat.add_assoc, Nat.add_comm 1 j] using this

end NotificationService

/-- C3: for every NotificationPlan, `NotificationService.execute` returns a
NotificationResult with `len(result.tickets) = len(plan.tickets)` and
`len(result.emails) = len(plan.emails)`, and the receipt at position `i`
carries the request at position `i` of the plan, for tickets and emails
alike, whatever ids the uuid streams supply. -/
theorem C3_notification_receipts_positional (tIds mIds : Nat → String)
    (plan : NotificationPlan) :
    (NotificationService.execute tIds mIds plan).tickets.length = plan.tickets.length ∧
    (NotificationService.execute tIds mIds plan).emails.length = plan.emails.length ∧
    (∀ i (h : i < plan.tickets.length),
      ((NotificationService.execute tIds mIds plan).tickets.get
          ⟨i, by simp [NotificationService.execute, NotificationService._create_tickets,
                       NotificationService.createTicketsFrom_length]; exact h⟩).request =
        plan.tickets.get ⟨i, h⟩) ∧
    (∀ i (h : i < plan.emails.length),
      ((NotificationService.execute tIds mIds plan).emails.get
          ⟨i, by simp [NotificationService.execute, NotificationService._send_emails,
                       NotificationService.sendEmailsFrom_length]; exact h⟩).request =
        plan.emails.get ⟨i, h⟩) := by
  refine ⟨?_, ?_, ?_, ?_⟩
  · simp [NotificationService.execute, NotificationService._create_tickets,
          NotificationService.createTicketsFrom_length]
  · simp [NotificationService.execute, NotificationService._send_emails,
          NotificationService.sendEmailsFrom_length]
  · intro i h
    have := NotificationService.createTicketsFrom_get tIds 0 plan.tickets i h
    simp only [NotificationService.execute, NotificationService._create_tickets]
    rw [this]
  · intro i h
    have := NotificationService.sendEmailsFrom_get mIds 0 plan.emails i h
    simp only [NotificationService.execute, NotificationService._send_emails]
    rw [this]

/-- C3 witness: the theorem instantiated on a concrete two-ticket,
one-email plan, discharging the index hypotheses at index 0 and 1. -/
theorem C3_notification_receipts_positional_witness :
    (NotificationService.execute (fun n => toString n) (fun n => toString n)
        { tickets := [⟨"t0", "d0", .high⟩, ⟨"t1", "d1", .low⟩],
          emails := [⟨"r0", "s0", "b0"⟩] }).tickets.length = 2 ∧
    ((NotificationService.execute (fun n => toString n) (fun n => toString n)
        { tickets := [⟨"t0", "d0", .high⟩, ⟨"t1", "d1", .low⟩],
          emails := [⟨"r0", "s0", "b0"⟩] }).tickets.get
        ⟨1, by decide⟩).request = ⟨"t1", "d1", .low⟩ := by
  have h := C3_notification_receipts_positional (fun n => toString n) (fun n => toString n)
    { tickets := [⟨"t0", "d0", .high⟩, ⟨"t1", "d1", .low⟩],
      emails := [⟨"r0", "s0", "b0"⟩] }
  exact ⟨h.1, h.2.2.1 1 (by decide)⟩

/-! ## EvidenceAnalyzer, from `services/evidence_analyzer.py`

`analyse` probes the file system and PIL; the observable behaviour of that
environment at the given path is captured by `EvidenceProbe`:
* `missing`       — `path.exists()` is false;
* `unidentified`  — `Image.open` raises `UnidentifiedImageError`;
* `raisesOther`   — the `try` body raises any other exception
                    (unreadable file, decode error, `read_bytes` failure);
* `image fmt w h vision` — the file opens as an image with format `fmt`
  (`None` when PIL reports no format), size `w`×`h`, and the vision API call
  inside `_analyse_image` either raises (`.error`) or returns a message
  whose `content` field is `vision`'s payload (`none` models a `None`
  content, whose `.strip()` raises `AttributeError`, caught by the inner
  `except` like any other vision failure). -/

inductive EvidenceProbe where
  | missing
  | unidentified
  | raisesOther
  | image (fmt : Option String) (w h : Nat) (vision : Except String (Option String))
  deriving Repr

namespace EvidenceAnalyzer

/-- The `analysis_text` computation of `_analyse_image`
(evidence_analyzer.py lines 52-72): a vision failure (exception, or `None`
content whose `.strip()` raises inside the same `try`) yields
"Unable to complete AI analysis."; an empty stripped text yields
"Vision model returned no commentary."; otherwise the stripped text. -/
def visionText : Except String (Option String) → String
  | .error _ => "Unable to complete AI analysis."
  | .ok none => "Unable to complete AI analysis."
  | .ok (some s) =>
      let t := s.trim
      if t = "" then "Vision model returned no commentary." else t

/-- `_analyse_image` (evidence_analyzer.py lines 39-77): formats
`f"Image {fmt} {w}x{h}px. Analysis: {analysis_text}"` with
`fmt = image.format or "unknown"`. -/
def _analyse_image (fmt : Option String) (w h : Nat)
    (vision : Except String (Option String)) : String :=
  "Image " ++ fmt.getD "unknown" ++ " " ++ toString w ++ "x" ++ toString h
    ++ "px. Analysis: " ++ visionText vision

/-- `EvidenceAnalyzer.analyse` (evidence_analyzer.py lines 26-37): total in
the probe — every failure path resolves to a literal fallback string. -/
def analyse : EvidenceProbe → String
  | .missing => "Evidence file missing."
  | .unidentified => "Unsupported evidence type (non-image)."
  | .raisesOther => "Error processing evidence."
  | .image fmt w h vision => _analyse_image fmt w h vision

end EvidenceAnalyzer

/-- C6: `EvidenceAnalyzer.analyse` is total — it is a Lean function
`EvidenceProbe → String`, so every probe (missing file, non-image file, any
other processing error, or an image) yields a string and nothing is raised.
The three failure probes resolve to three distinct literal fallback
strings, the non-image ("unsupported type") case distinguished from the
error case. -/
theorem C6_analyse_total_distinct_fallbacks :
    EvidenceAnalyzer.analyse .missing = "Evidence file missing." ∧
    EvidenceAnalyzer.analyse .unidentified = "Unsupported evidence type (non-image)." ∧
    EvidenceAnalyzer.analyse .raisesOther = "Error processing evidence." ∧
    EvidenceAnalyzer.analyse .missing ≠ EvidenceAnalyzer.analyse .unidentified ∧
    EvidenceAnalyzer.analyse .missing ≠ EvidenceAnalyzer.analyse .raisesOther ∧
    EvidenceAnalyzer.analyse .unidentified ≠ EvidenceAnalyzer.analyse .raisesOther := by
  refine ⟨rfl, rfl, rfl, ?_, ?_, ?_⟩ <;> decide

/-! ## Evidence-analysis fan-out, from `main.py` lines 72-82

One `asyncio.create_task(evidence_analyzer.analyse(path))` is spawned per
saved record, in input order; `asyncio.gather(*tasks,
return_exceptions=True)` joins them positionally, converting a raised
exception into a value. The per-record task outcome is abstracted as
`task : EvidenceItem × Path → Except String String` (`.error` = the task
raised); `gather`'s positional join is then `records.map task`. The
`zip`/assignment loop writes each outcome back into its item's `analysis`
field, substituting "Analysis failed." for a non-string outcome. -/

/-- `item.analysis = analysis if isinstance(analysis, str) else "Analysis failed."`
(main.py line 82). -/
def analysisOrFallback : Except String String → String
  | .ok s => s
  | .error _ => "Analysis failed."

/-- The fan-out and join of main.py lines 74-82 over the saved records
(`Path` is the resolved storage path, a list of segments). -/
def evidenceFanOut (task : EvidenceItem × List String → Except String String)
    (records : List (EvidenceItem × List String)) : List EvidenceItem :=
  let analyses := records.map task
  (records.zip analyses).map fun p => { p.1.1 with analysis := some (analysisOrFallback p.2) }

/-- C2: the joined fan-out result has the length of the input, and entry
`i` is input item `i` (input order) with its `analysis` field set to task
`i`'s outcome — the task's string if it returned one, the literal
"Analysis failed." if the task raised. -/
theorem C2_fanout_positional_join
    (task : EvidenceItem × List String → Except String String)
    (records : List (EvidenceItem × List String)) :
    (evidenceFanOut task records).length = records.length ∧
    ∀ i (h : i < records.length),
      (evidenceFanOut task records).get
          ⟨i, by simpa [evidenceFanOut] using h⟩ =
        { (records.get ⟨i, h⟩).1 with
          analysis := some (analysisOrFallback (task (records.get ⟨i, h⟩))) } := by
  constructor
  · simp [evidenceFanOut]
  · intro i h
    simp [evidenceFanOut, List.get_eq_getElem]

/-- C2 witness: a two-record fan-out whose first task returns text and whose
second raises; the join keeps both positions and maps the failure to
"Analysis failed.". -/
theorem C2_fanout_positional_join_witness :
    (evidenceFanOut
        (fun p => if p.1.filename = "a.png" then .ok "fine" else .error "boom")
        [(⟨"a.png", "/evidence/i/a.png", 3, none⟩, ["root", "i", "a.png"]),
         (⟨"b.txt", "/evidence/i/b.txt", 4, none⟩, ["root", "i", "b.txt"])]).get ⟨1, by decide⟩ =
      ⟨"b.txt", "/evidence/i/b.txt", 4, some "Analysis failed."⟩ := by
  have h := (C2_fanout_positional_join
      (fun p => if p.1.filename = "a.png" then .ok "fine" else .error "boom")
      [(⟨"a.png", "/evidence/i/a.png", 3, none⟩, ["root", "i", "a.png"]),
       (⟨"b.txt", "/evidence/i/b.txt", 4, none⟩, ["root", "i", "b.txt"])]).2 1 (by decide)
  rw [h]
  decide

/-! ## Filename sanitization, from `services/evidence.py` lines 73-76

Python strings are `List Char` here, since the processing is per character.
`str.isalnum` is Unicode-aware, so it is modelled by `pyIsAlnum` below,
exact on the Basic Latin and Latin-1 blocks. -/

/-- Python `str.isalnum` on one character, modelled exactly on the Basic
Latin and Latin-1 Unicode blocks (code points up to U+00FF): the ASCII
letters and digits, the Latin-1 letters ª µ º and U+00C0-U+00FF apart from
× (U+00D7) and ÷ (U+00F7), and the Latin-1 numeric characters ² ³ ¹ ¼ ½ ¾.
Characters above U+00FF (on which Python's classifier consults the full
Unicode tables) do not occur in this development. -/
def pyIsAlnum (c : Char) : Bool :=
  c.isAlphanum ||
    (let n := c.toNat
     n == 0xAA || n == 0xB5 || n == 0xBA ||
     n == 0xB2 || n == 0xB3 || n == 0xB9 ||
     (0xBC ≤ n && n ≤ 0xBE) ||
     (0xC0 ≤ n && n ≤ 0xFF && !(n == 0xD7) && !(n == 0xF7)))

/-- One element of the list comprehension in `_sanitize_filename`
(evidence.py line 74): `ch if ch.isalnum() or ch in {".", "-", "_"} else "_"`. -/
def sanitizeChar (ch : Char) : Char :=
  if pyIsAlnum ch || ch == '.' || ch == '-' || ch == '_' then ch else '_'

/-- The character set stripped by `.strip("._")` (evidence.py line 75). -/
def stripDotUnderscore (c : Char) : Bool :=
  c == '.' || c == '_'

/-- Python `str.strip(chars)`: remove leading and trailing characters
satisfying `p`. -/
def stripBoth (p : Char → Bool) (l : List Char) : List Char :=
  ((l.dropWhile p).reverse.dropWhile p).reverse

/-- `_sanitize_filename` (evidence.py lines 73-76): map each character,
strip leading/trailing `.`/`_`, fall back to `"evidence"` when nothing is
left (`sanitized or "evidence"`). -/
def _sanitize_filename (name : List Char) : List Char :=
  let sanitized := stripBoth stripDotUnderscore (name.map sanitizeChar)
  if sanitized = [] then "evidence".data else sanitized

/-- The character class `[A-Za-z0-9._-]` named by the specification.
(`Char.isAlphanum` is exactly ASCII `[A-Za-z0-9]`.) This is the claim-side
set, to be compared with what the code keeps. -/
def specAsciiAllowed (c : Char) : Bool :=
  c.isAlphanum || c == '.' || c == '-' || c == '_'

/-- The character class the code actually keeps: Python-alphanumeric
(Unicode-aware) or one of `.`, `-`, `_`. -/
def pyAllowedChar (c : Char) : Bool :=
  pyIsAlnum c || c == '.' || c == '-' || c == '_'

theorem mem_of_mem_stripBoth {p : Char → Bool} {l : List Char} {c : Char}
    (h : c ∈ stripBoth p l) : c ∈ l := by
  unfold stripBoth at h
  rw [List.mem_reverse] at h
  have h1 := List.dropWhile_subset (l := (l.dropWhile p).reverse) p h
  rw [List.mem_reverse] at h1
  exact List.dropWhile_subset p h1

theorem head?_stripBoth_not {p : Char → Bool} {l : List Char} {c : Char}
    (h : (stripBoth p l).head? = some c) : p c = false := by
  obtain ⟨t, ht⟩ := List.dropWhile_suffix (l := (l.dropWhile p).reverse) p
  have hl : l.dropWhile p = stripBoth p l ++ t.reverse := by
    unfold stripBoth
    rw [← List.reverse_append, ht, List.reverse_reverse]
  have hh : (l.dropWhile p).head? = some c := by
    rw [hl, List.head?_append, h]
    rfl
  have := List.head?_dropWhile_not p l
  rw [hh] at this
  exact this

theorem getLast?_stripBoth_not {p : Char → Bool} {l : List Char} {c : Char}
    (h : (stripBoth p l).getLast? = some c) : p c = false := by
  unfold stripBoth at h
  rw [List.getLast?_reverse] at h
  have := List.head?_dropWhile_not p (l.dropWhile p).reverse
  rw [h] at this
  exact this

/-- C4 counterexample: at the concrete input `"é"` (U+00E9), the sanitized
output is `"é"` itself — Python's Unicode-aware `isalnum` keeps it — which
is not in the claimed character class `[A-Za-z0-9._-]`. -/
theorem C4_counterexample_nonascii :
    _sanitize_filename [Char.ofNat 0xE9] = [Char.ofNat 0xE9] ∧
    ¬ (∀ c ∈ _sanitize_filename [Char.ofNat 0xE9], specAsciiAllowed c = true) := by
  constructor
  · decide
  · intro h
    have := h (Char.ofNat 0xE9) (by decide)
    exact absurd this (by decide)

/-- C4 amended: sanitization is a total function; every character of the
output is Python-alphanumeric or one of `.`, `-`, `_` (every character
outside that set having been mapped to `_`); the output never starts or
ends with `.` or `_`; it is non-empty; and when stripping leaves nothing
the default name `"evidence"` is returned. -/
theorem C4_amended_sanitize_total (name : List Char) :
    (∀ c ∈ _sanitize_filename name, pyAllowedChar c = true) ∧
    _sanitize_filename name ≠ [] ∧
    (∀ c, (_sanitize_filename name).head? = some c → stripDotUnderscore c = false) ∧
    (∀ c, (_sanitize_filename name).getLast? = some c → stripDotUnderscore c = false) ∧
    (stripBoth stripDotUnderscore (name.map sanitizeChar) = [] →
      _sanitize_filename name = "evidence".data) := by
  have hev : "evidence".data = ['e', 'v', 'i', 'd', 'e', 'n', 'c', 'e'] := rfl
  refine ⟨?_, ?_, ?_, ?_, ?_⟩
  · intro c hc
    unfold _sanitize_filename at hc
    by_cases hnil : stripBoth stripDotUnderscore (name.map sanitizeChar) = []
    · rw [if_pos hnil, hev] at hc
      simp only [List.mem_cons, List.not_mem_nil, or_false] at hc
      rcases hc with h | h | h | h | h | h | h | h <;> subst h <;> decide
    · rw [if_neg hnil] at hc
      have hmem := mem_of_mem_stripBoth hc
      obtain ⟨a, _, ha⟩ := List.mem_map.mp hmem
      unfold sanitizeChar at ha
      by_cases hA : (pyIsAlnum a || a == '.' || a == '-' || a == '_') = true
      · rw [if_pos hA] at ha
        subst ha
        unfold pyAllowedChar
        simpa [Bool.or_assoc] using hA
      · rw [if_neg hA] at ha
        subst ha
        decide
  · unfold _sanitize_filename
    by_cases hnil : stripBoth stripDotUnderscore (name.map sanitizeChar) = []
    · rw [if_pos hnil, hev]; decide
    · rw [if_neg hnil]; exact hnil
  · intro c hc
    unfold _sanitize_filename at hc
    by_cases hnil : stripBoth stripDotUnderscore (name.map sanitizeChar) = []
    · rw [if_pos hnil, hev] at hc
      simp only [List.head?_cons, Option.some.injEq] at hc
      subst hc; decide
    · rw [if_neg hnil] at hc
      exact head?_stripBoth_not hc
  · intro c hc
    unfold _sanitize_filename at hc
    by_cases hnil : stripBoth stripDotUnderscore (name.map sanitizeChar) = []
    · rw [if_pos hnil, hev] at hc
      simp only [List.getLast?] at hc
      simp only [Option.some.injEq] at hc
      subst hc; decide
    · rw [if_neg hnil] at hc
      exact getLast?_stripBoth_not hc
  · intro hnil
    unfold _sanitize_filename
    rw [if_pos hnil]

/-- C4 witness: the amended theorem applied at the concrete input
`"..weird répört?.txt."`: the output contains only kept characters, is
non-empty, and starts/ends outside `{., _}`. -/
theorem C4_amended_sanitize_total_witness :
    (∀ c ∈ _sanitize_filename "..weird répört?.txt.".data, pyAllowedChar c = true) ∧
    _sanitize_filename "..weird répört?.txt.".data ≠ [] := by
  have h := C4_amended_sanitize_total "..weird répört?.txt.".data
  exact ⟨h.1, h.2.1⟩

/-! ## EvidenceStorage, from `services/evidence.py` lines 15-70

An uploaded file is its (optional) client filename plus the sequence of
byte counts of the successive `await upload.read(1024 * 1024)` calls up to
end of file (Python's read loop stops at the first empty chunk, so the
model does too). The `uuid.uuid4().hex` draw per file is a token stream
`tokens : Nat → String` indexed by the file's position. `save` also
returns the incident directory's final contents — the list of
`(stored file name, bytes on disk)` pairs the writes left behind — so the
`unlink` of an oversized partial write is observable. -/

/-- An `UploadFile`: client-supplied name (`None` allowed) and the chunk
sizes of its content stream. -/
structure UploadFile where
  filename : Option String
  chunks : List Nat
  deriving DecidableEq, Repr

/-- Python's `a or b` on an optional string: `None` and `""` are falsy. -/
def pyOrStr (o : Option String) (d : String) : String :=
  match o with
  | none => d
  | some s => if s = "" then d else s

namespace EvidenceStorage

/-- The read/write loop of `_write_file` (evidence.py lines 53-68):
`total` is the running byte count, `written` the bytes written to the
target file so far. Each chunk is counted, then checked against the
ceiling — `if total > self._max_bytes`, the partial file is unlinked and
the upload skipped (`(none, none)`) — and only then written. Returns the
reported size and the bytes left on disk. -/
def writeLoop (maxBytes : Nat) : Nat → Nat → List Nat → Option Nat × Option Nat
  | total, written, [] => (some total, some written)
  | total, written, c :: rest =>
      if c = 0 then (some total, some written)
      else
        if maxBytes < total + c then (none, none)
        else writeLoop maxBytes (total + c) (written + c) rest

/-- Outcome of `_write_file`: the reported size (`None` = skipped), the
unique relative name, and the target file's bytes on disk (`None` = no
file left). -/
structure WriteOutcome where
  size : Option Nat
  rel_name : String
  disk : Option Nat
  deriving DecidableEq, Repr

/-- The unique storage name `f"{uuid.uuid4().hex}_{sanitized}"` built in
`_write_file` (evidence.py lines 48-50). -/
def relNameOf (token : String) (u : UploadFile) : String :=
  token ++ "_" ++ ⟨_sanitize_filename (pyOrStr u.filename "evidence").data⟩

/-- `_write_file` (evidence.py lines 47-70). -/
def _write_file (maxBytes : Nat) (token : String) (u : UploadFile) : WriteOutcome :=
  let r := writeLoop maxBytes 0 0 u.chunks
  ⟨r.1, relNameOf token u, r.2⟩

/-- The `for upload in files` loop of `save` (evidence.py lines 32-41),
with the position index threaded for the uuid stream: a skipped file
(`size is None`) contributes no record; a stored one contributes
`EvidenceItem(filename=upload.filename or rel_name,
url=f"/evidence/{incident_id}/{rel_name}", size_bytes=size)`. The second
component accumulates the directory contents. -/
def saveFrom (maxBytes : Nat) (tokens : Nat → String) (incident_id : String) :
    Nat → List UploadFile → List (EvidenceItem × String) × List (String × Nat)
  | _, [] => ([], [])
  | i, u :: rest =>
      let w := _write_file maxBytes (tokens i) u
      let tail := saveFrom maxBytes tokens incident_id (i + 1) rest
      let disks : List (String × Nat) :=
        match w.disk with
        | some n => (w.rel_name, n) :: tail.2
        | none => tail.2
      match w.size with
      | none => (tail.1, disks)
      | some sz =>
          (({ filename := pyOrStr u.filename w.rel_name,
              url := "/evidence/" ++ incident_id ++ "/" ++ w.rel_name,
              size_bytes := sz }, w.rel_name) :: tail.1, disks)

/-- `EvidenceStorage.save` (evidence.py lines 27-42). -/
def save (maxBytes : Nat) (tokens : Nat → String) (incident_id : String)
    (files : List UploadFile) : List (EvidenceItem × String) × List (String × Nat) :=
  saveFrom maxBytes tokens incident_id 0 files

/-- Claim-side description of `save`'s records: the uploads whose total
size is within the ceiling, in input order, each yielding its evidence
record with the full byte count. -/
def savedRecordsSpec (maxBytes : Nat) (tokens : Nat → String) (incident_id : String) :
    Nat → List UploadFile → List (EvidenceItem × String)
  | _, [] => []
  | i, u :: rest =>
      if u.chunks.sum ≤ maxBytes then
        ({ filename := pyOrStr u.filename (relNameOf (tokens i) u),
           url := "/evidence/" ++ incident_id ++ "/" ++ relNameOf (tokens i) u,
           size_bytes := u.chunks.sum }, relNameOf (tokens i) u)
          :: savedRecordsSpec maxBytes tokens incident_id (i + 1) rest
      else savedRecordsSpec maxBytes tokens incident_id (i + 1) rest

theorem writeLoop_spec (maxBytes : Nat) (chunks : List Nat)
    (hpos : ∀ c ∈ chunks, 0 < c) (total : Nat) (htot : total ≤ maxBytes) :
    writeLoop maxBytes total total chunks =
      if total + chunks.sum ≤ maxBytes then
        (some (total + chunks.sum), some (total + chunks.sum))
      else (none, none) := by
  induction chunks generalizing total with
  | nil => simp [writeLoop, htot]
  | cons c rest ih =>
      have hc : c ≠ 0 := Nat.pos_iff_ne_zero.mp (hpos c (by simp))
      have hrest : ∀ x ∈ rest, 0 < x := fun x hx => hpos x (by simp [hx])
      by_cases hlt : maxBytes < total + c
      · have hgt : ¬ (total + (c + rest.sum) ≤ maxBytes) := by omega
        simp [writeLoop, hc, hlt, hgt]
      · have hle : total + c ≤ maxBytes := Nat.le_of_not_lt hlt
        have h2 := ih hrest (total + c) hle
        have hout : writeLoop maxBytes total total (c :: rest) =
            writeLoop maxBytes (total + c) (total + c) rest := by
          simp [writeLoop, hc, hlt]
        rw [hout, h2, List.sum_cons, ← Nat.add_assoc]

theorem saveFrom_eq_spec (maxBytes : Nat) (tokens : Nat → String)
    (incident_id : String) (files : List UploadFile)
    (hpos : ∀ u ∈ files, ∀ c ∈ u.chunks, 0 < c) (i : Nat) :
    saveFrom maxBytes tokens incident_id i files =
      (savedRecordsSpec maxBytes tokens incident_id i files,
       (savedRecordsSpec maxBytes tokens incident_id i files).map
         fun r => (r.2, r.1.size_bytes)) := by
  induction files generalizing i with
  | nil => rfl
  | cons u rest ih =>
      have hu : ∀ c ∈ u.chunks, 0 < c := hpos u (by simp)
      have hrest : ∀ v ∈ rest, ∀ c ∈ v.chunks, 0 < c :=
        fun v hv => hpos v (by simp [hv])
      have hw := writeLoop_spec maxBytes u.chunks hu 0 (Nat.zero_le _)
      rw [Nat.zero_add] at hw
      by_cases hle : u.chunks.sum ≤ maxBytes
      · rw [if_pos hle] at hw
        simp [saveFrom, _write_file, hw, ih hrest, savedRecordsSpec, hle]
      · rw [if_neg hle] at hw
        simp [saveFrom, _write_file, hw, ih hrest, savedRecordsSpec, hle]

theorem savedRecordsSpec_size_le (maxBytes : Nat) (tokens : Nat → String)
    (incident_id : String) (files : List UploadFile) (i : Nat) :
    ∀ r ∈ savedRecordsSpec maxBytes tokens incident_id i files,
      r.1.size_bytes ≤ maxBytes := by
  induction files generalizing i with
  | nil => intro r hr; exact absurd hr (by simp [savedRecordsSpec])
  | cons u rest ih =>
      intro r hr
      unfold savedRecordsSpec at hr
      by_cases hle : u.chunks.sum ≤ maxBytes
      · rw [if_pos hle] at hr
        rcases List.mem_cons.mp hr with h | h
        · subst h; exact hle
        · exact ih (i + 1) r h
      · rw [if_neg hle] at hr
        exact ih (i + 1) r hr

end EvidenceStorage

/-- C5: `save` is total (an oversized file is skipped, not an error), and —
for uploads read as positive-size chunks — its records are exactly the
within-ceiling uploads in input order, each carrying its recorded byte
count; the directory afterwards holds exactly the stored records' files
with their full sizes, so an oversized upload leaves neither a record nor
a partial file, and every stored size is within the ceiling. -/
theorem C5_save_ceiling (maxBytes : Nat) (tokens : Nat → String)
    (incident_id : String) (files : List UploadFile)
    (hpos : ∀ u ∈ files, ∀ c ∈ u.chunks, 0 < c) :
    EvidenceStorage.save maxBytes tokens incident_id files =
      (EvidenceStorage.savedRecordsSpec maxBytes tokens incident_id 0 files,
       (EvidenceStorage.savedRecordsSpec maxBytes tokens incident_id 0 files).map
         fun r => (r.2, r.1.size_bytes)) ∧
    (∀ r ∈ (EvidenceStorage.save maxBytes tokens incident_id files).1,
      r.1.size_bytes ≤ maxBytes) := by
  have h := EvidenceStorage.saveFrom_eq_spec maxBytes tokens incident_id files hpos 0
  refine ⟨h, ?_⟩
  intro r hr
  rw [EvidenceStorage.save, h] at hr
  exact EvidenceStorage.savedRecordsSpec_size_le maxBytes tokens incident_id files 0 r hr

/-- C5 witness: ceiling 5; a 2-byte upload is stored and recorded, a
7-byte upload (read as chunks 4 and 3) is dropped and its partial write
removed; the directory holds exactly the one stored file. -/
theorem C5_save_ceiling_witness :
    EvidenceStorage.save 5 (fun i => toString i) "inc"
        [⟨some "a.txt", [2]⟩, ⟨some "b.bin", [4, 3]⟩] =
      ([({ filename := "a.txt", url := "/evidence/inc/0_a.txt",
           size_bytes := 2, analysis := none }, "0_a.txt")],
       [("0_a.txt", 2)]) := by
  have h := C5_save_ceiling 5 (fun i => toString i) "inc"
    [⟨some "a.txt", [2]⟩, ⟨some "b.bin", [4, 3]⟩]
    (by intro u hu c hc; fin_cases hu <;> fin_cases hc <;> decide)
  exact h.1.trans (by decide)

/-- C10: the size ceiling is exclusive — an upload whose total size equals
`maxBytes` exactly is stored and appears in `save`'s records (with
`size_bytes = maxBytes`); an upload is dropped precisely when its total
size strictly exceeds `maxBytes`. -/
theorem C10_ceiling_boundary (maxBytes : Nat) (tokens : Nat → String)
    (incident_id : String) (u : UploadFile)
    (hpos : ∀ c ∈ u.chunks, 0 < c) :
    (u.chunks.sum = maxBytes →
      (EvidenceStorage.save maxBytes tokens incident_id [u]).1 =
        [({ filename := pyOrStr u.filename (EvidenceStorage.relNameOf (tokens 0) u),
            url := "/evidence/" ++ incident_id ++ "/" ++ EvidenceStorage.relNameOf (tokens 0) u,
            size_bytes := maxBytes }, EvidenceStorage.relNameOf (tokens 0) u)]) ∧
    ((EvidenceStorage.save maxBytes tokens incident_id [u]).1 = [] ↔
      maxBytes < u.chunks.sum) := by
  have hall : ∀ v ∈ [u], ∀ c ∈ v.chunks, 0 < c := by
    intro v hv
    rw [List.mem_singleton] at hv
    subst hv
    exact hpos
  have h := EvidenceStorage.saveFrom_eq_spec maxBytes tokens incident_id [u] hall 0
  constructor
  · intro hsum
    rw [EvidenceStorage.save, h]
    simp [EvidenceStorage.savedRecordsSpec, hsum]
  · rw [EvidenceStorage.save, h]
    by_cases hle : u.chunks.sum ≤ maxBytes
    · have hnl : ¬ maxBytes < u.chunks.sum := Nat.not_lt.mpr hle
      simp [EvidenceStorage.savedRecordsSpec, hle, hnl]
    · have hl : maxBytes < u.chunks.sum := Nat.lt_of_not_le hle
      simp [EvidenceStorage.savedRecordsSpec, hle, hl]

/-- C10 witness: ceiling 4; an upload read as chunks 2 and 2 — total
exactly 4 — is stored with its recorded size, and is not dropped. -/
theorem C10_ceiling_boundary_witness :
    (EvidenceStorage.save 4 (fun _ => "t") "inc" [⟨some "a", [2, 2]⟩]).1 =
      [({ filename := "a", url := "/evidence/inc/t_a",
          size_bytes := 4, analysis := none }, "t_a")] := by
  have h := (C10_ceiling_boundary 4 (fun _ => "t") "inc" ⟨some "a", [2, 2]⟩
      (by intro c hc; fin_cases hc <;> decide)).1 (by decide)
  exact h.trans (by decide)


/-! ## Evidence path resolution and the public endpoint, from
`services/evidence.py` lines 44-45 and `main.py` lines 126-136

A file-system path is its list of segments below the file-system root; the
file system itself is a map from paths to what is found there. `Path.resolve`
is modelled as lexical normalization of `.`/`..`/empty segments (no symbolic
links are modelled). `path.relative_to(root)` succeeds exactly when `root`'s
segments are a prefix of `path`'s. -/

/-- What the file system holds at a path: nothing, a regular file, or a
directory (for which `path.is_file()` is false). -/
inductive FileKind where
  | missing | file | dir
  deriving DecidableEq, Repr

/-- Split a string on `/`, as `pathlib` does when a string is joined onto a
path. -/
def splitSlashAux : List Char → List Char → List String
  | [], acc => [⟨acc.reverse⟩]
  | c :: cs, acc =>
      if c = '/' then ⟨acc.reverse⟩ :: splitSlashAux cs []
      else splitSlashAux cs (c :: acc)

/-- Split on `/` (see `splitSlashAux`). -/
def splitSlash (s : String) : List String :=
  splitSlashAux s.data []

/-- Lexical normalization performed by `Path.resolve`: drop `.` and empty
segments, let `..` pop the last kept segment. -/
def normalizeSegs (segs : List String) : List String :=
  segs.foldl
    (fun acc seg =>
      if seg = "" ∨ seg = "." then acc
      else if seg = ".." then acc.dropLast
      else acc ++ [seg])
    []

/-- `EvidenceStorage.resolve` (evidence.py lines 44-45):
`(self._root / incident_id / filename).resolve()`. Joining a string onto a
path splits it on `/`, so both parameters are split. `root` is the storage
root's already-normalized segments. -/
def EvidenceStorage.resolve (root : List String) (incident_id filename : String) :
    List String :=
  normalizeSegs (root ++ splitSlash incident_id ++ splitSlash filename)

/-- `get_evidence` (main.py lines 126-136): resolve, reject a path whose
`relative_to(root)` fails with HTTP 404 "Evidence not found", reject a
missing or non-regular file with the same 404, otherwise serve the file. -/
def get_evidence (fs : List String → FileKind) (root : List String)
    (incident_id filename : String) : Except (Nat × String) (List String) :=
  if List.isPrefixOf root (EvidenceStorage.resolve root incident_id filename) then
    match fs (EvidenceStorage.resolve root incident_id filename) with
    | .file => .ok (EvidenceStorage.resolve root incident_id filename)
    | _ => .error (404, "Evidence not found")
  else .error (404, "Evidence not found")

/-- C8: whenever the resolved path escapes the storage root (its
canonicalized segments do not extend the root's) or no regular file exists
there, the endpoint answers HTTP 404 "Evidence not found"; moreover 404
"Evidence not found" is the only error the endpoint can ever produce, so
no distinct security error reveals path structure. -/
theorem C8_evidence_escape_or_missing_is_404 (fs : List String → FileKind)
    (root : List String) (incident_id filename : String)
    (h : List.isPrefixOf root (EvidenceStorage.resolve root incident_id filename) = false
      ∨ fs (EvidenceStorage.resolve root incident_id filename) ≠ .file) :
    get_evidence fs root incident_id filename = .error (404, "Evidence not found") ∧
    ∀ e, get_evidence fs root incident_id filename = .error e →
      e = (404, "Evidence not found") := by
  constructor
  · rcases h with h | h
    · simp [get_evidence, h]
    · cases hp : List.isPrefixOf root (EvidenceStorage.resolve root incident_id filename) with
      | false => simp [get_evidence, hp]
      | true =>
          cases hk : fs (EvidenceStorage.resolve root incident_id filename) with
          | file => exact absurd hk h
          | missing => simp [get_evidence, hp, hk]
          | dir => simp [get_evidence, hp, hk]
  · intro e he
    unfold get_evidence at he
    cases hp : List.isPrefixOf root (EvidenceStorage.resolve root incident_id filename) with
    | false =>
        rw [hp] at he
        simp at he
        exact he.symm
    | true =>
        rw [hp] at he
        cases hk : fs (EvidenceStorage.resolve root incident_id filename) with
        | file => rw [hk] at he; simp at he
        | missing => rw [hk] at he; simp at he; exact he.symm
        | dir => rw [hk] at he; simp at he; exact he.symm

/-- C8 witness: with root `/srv/storage/evidence`, the request
`incident_id = ".."`, `filename = ".."` resolves to `/srv/storage`, which
escapes the root, and the endpoint answers the generic 404. -/
theorem C8_evidence_escape_or_missing_is_404_witness :
    get_evidence (fun _ => .dir) ["srv", "storage", "evidence"] ".." ".." =
      .error (404, "Evidence not found") := by
  exact (C8_evidence_escape_or_missing_is_404 (fun _ => .dir)
    ["srv", "storage", "evidence"] ".." ".." (Or.inl (by decide))).1

/-! ## The incident workflow graph, from `workflow/incident_graph.py`

The five LangGraph nodes run strictly in sequence (`intake → triage →
root_cause → corrective → notify`, then `END`); each node's single agent
call is an opaque async function that may raise, modelled as an
`Except String` result. A node that raises propagates out of
`graph.ainvoke`, so `run` is the fall-through of the five stage calls.
The notify node also executes the notification plan through
`NotificationService.execute` (total). `main.incident_workflow`
(main.py lines 92-96) catches any exception from the run and replaces it
with the generic HTTP 500 "Incident workflow failed.". -/

/-- The five opaque stage functions, with the exact inputs each node reads
from the accumulated state (incident_graph.py lines 88-123). -/
structure StageFns where
  intake : IncidentReport → Except String IntakeSummary
  triage : IncidentReport → IntakeSummary → Except String TriageAssessment
  root_cause : IncidentReport → IntakeSummary → TriageAssessment →
    Except String RootCauseAnalysis
  corrective : IncidentReport → IntakeSummary → TriageAssessment →
    RootCauseAnalysis → Except String CorrectiveActionPlan
  notification : IncidentReport → IntakeSummary → TriageAssessment →
    CorrectiveActionPlan → Except String NotificationPlan

/-- The terminal report assembly: the `IncidentWorkflowReport(...)`
constructor call of `IncidentWorkflowGraph.run` (incident_graph.py lines
62-69) together with the `result.evidence = evidence_models` assignment
performed by the caller (main.py line 98). A pure record merge: no
collaborator is invoked and no failure is possible. -/
def assembleReport (incident : IncidentReport) (intake : IntakeSummary)
    (triage : TriageAssessment) (root_cause : RootCauseAnalysis)
    (corrective_actions : CorrectiveActionPlan) (notifications : NotificationResult)
    (evidence : List EvidenceItem) (now : Nat) : IncidentWorkflowReport :=
  { incident := incident, intake := intake, triage := triage,
    root_cause := root_cause, corrective_actions := corrective_actions,
    notifications := notifications, evidence := evidence, generated_at := now }

/-- `IncidentWorkflowGraph.run` (incident_graph.py lines 59-69): invoke the
graph — the strict five-stage sequence — and assemble the terminal report
from the final state. `run` itself attaches no evidence (the caller fills
it in afterwards), hence `evidence = []`. `tIds`/`mIds` are the uuid
streams consumed by the notification executor, `now` the report timestamp. -/
def IncidentWorkflowGraph.run (fns : StageFns) (tIds mIds : Nat → String)
    (now : Nat) (report : IncidentReport) : Except String IncidentWorkflowReport :=
  match fns.intake report with
  | .error e => .error e
  | .ok intake =>
    match fns.triage report intake with
    | .error e => .error e
    | .ok triage =>
      match fns.root_cause report intake triage with
      | .error e => .error e
      | .ok rc =>
        match fns.corrective report intake triage rc with
        | .error e => .error e
        | .ok ca =>
          match fns.notification report intake triage ca with
          | .error e => .error e
          | .ok plan =>
              .ok (assembleReport report intake triage rc ca
                (NotificationService.execute tIds mIds plan) [] now)

/-- The `/incident-workflow` endpoint's handling of the run (main.py lines
92-96): any exception escaping the workflow is replaced by the generic
HTTP 500 "Incident workflow failed."; on success the report is returned. -/
def incident_workflow (fns : StageFns) (tIds mIds : Nat → String) (now : Nat)
    (report : IncidentReport) : Except (Nat × String) IncidentWorkflowReport :=
  match IncidentWorkflowGraph.run fns tIds mIds now report with
  | .ok r => .ok r
  | .error _ => .error (500, "Incident workflow failed.")

/-- Some stage function raises when the pipeline reaches it: the intake
call fails, or every earlier stage succeeded and the stage's own call
fails on the outputs the run produced. -/
def stageFailure (fns : StageFns) (report : IncidentReport) : Prop :=
  (∃ e, fns.intake report = .error e) ∨
  (∃ intake e, fns.intake report = .ok intake ∧
    fns.triage report intake = .error e) ∨
  (∃ intake triage e, fns.intake report = .ok intake ∧
    fns.triage report intake = .ok triage ∧
    fns.root_cause report intake triage = .error e) ∨
  (∃ intake triage rc e, fns.intake report = .ok intake ∧
    fns.triage report intake = .ok triage ∧
    fns.root_cause report intake triage = .ok rc ∧
    fns.corrective report intake triage rc = .error e) ∨
  (∃ intake triage rc ca e, fns.intake report = .ok intake ∧
    fns.triage report intake = .ok triage ∧
    fns.root_cause report intake triage = .ok rc ∧
    fns.corrective report intake triage rc = .ok ca ∧
    fns.notification report intake triage ca = .error e)

/-- C1: if any of the five stage functions raises when the pipeline reaches
it, the whole run yields no `IncidentWorkflowReport` — the caller gets
exactly the generic 500 "Incident workflow failed." error, never a partial
state or partially populated report. -/
theorem C1_stage_failure_is_fatal_and_generic (fns : StageFns)
    (tIds mIds : Nat → String) (now : Nat) (report : IncidentReport)
    (h : stageFailure fns report) :
    incident_workflow fns tIds mIds now report =
      .error (500, "Incident workflow failed.") := by
  rcases h with ⟨e, h1⟩ | ⟨intake, e, h1, h2⟩ | ⟨intake, triage, e, h1, h2, h3⟩ |
    ⟨intake, triage, rc, e, h1, h2, h3, h4⟩ |
    ⟨intake, triage, rc, ca, e, h1, h2, h3, h4, h5⟩
  · simp [incident_workflow, IncidentWorkflowGraph.run, h1]
  · simp [incident_workflow, IncidentWorkflowGraph.run, h1, h2]
  · simp [incident_workflow, IncidentWorkflowGraph.run, h1, h2, h3]
  · simp [incident_workflow, IncidentWorkflowGraph.run, h1, h2, h3, h4]
  · simp [incident_workflow, IncidentWorkflowGraph.run, h1, h2, h3, h4, h5]

/-- C1 witness: a concrete run whose triage stage raises after a successful
intake; the endpoint yields exactly the generic 500 failure. -/
theorem C1_stage_failure_is_fatal_and_generic_witness :
    incident_workflow
      { intake := fun _ => .ok ⟨"n", [], [], .low, 0⟩,
        triage := fun _ _ => .error "boom",
        root_cause := fun _ _ _ => .error "unused",
        corrective := fun _ _ _ _ => .error "unused",
        notification := fun _ _ _ _ => .error "unused" }
      (fun _ => "t") (fun _ => "m") 7 ⟨"T", "D", none, none, none, none, [], []⟩ =
      .error (500, "Incident workflow failed.") := by
  exact C1_stage_failure_is_fatal_and_generic _ _ _ _ _
    (Or.inr (Or.inl ⟨⟨"n", [], [], .low, 0⟩, "boom", rfl, rfl⟩))

/-- C9: report assembly is idempotent up to the timestamp — two assemblies
from the same completed workflow state (same incident, five stage outputs
and evidence list) at timestamps `t1` and `t2` agree on every field except
`generated_at`; equivalently, the first report is the second with only its
timestamp replaced. Assembly is a total Lean function of its record
arguments, so it cannot fail and consults no collaborator. -/
theorem C9_assembly_idempotent_up_to_timestamp (incident : IncidentReport)
    (intake : IntakeSummary) (triage : TriageAssessment)
    (root_cause : RootCauseAnalysis) (corrective_actions : CorrectiveActionPlan)
    (notifications : NotificationResult) (evidence : List EvidenceItem)
    (t1 t2 : Nat) :
    assembleReport incident intake triage root_cause corrective_actions
        notifications evidence t1 =
      { assembleReport incident intake triage root_cause corrective_actions
          notifications evidence t2 with generated_at := t1 } ∧
    (assembleReport incident intake triage root_cause corrective_actions
        notifications evidence t1).incident =
      (assembleReport incident intake triage root_cause corrective_actions
        notifications evidence t2).incident ∧
    (assembleReport incident intake triage root_cause corrective_actions
        notifications evidence t1).intake =
      (assembleReport incident intake triage root_cause corrective_actions
        notifications evidence t2).intake ∧
    (assembleReport incident intake triage root_cause corrective_actions
        notifications evidence t1).triage =
      (assembleReport incident intake triage root_cause corrective_actions
        notifications evidence t2).triage ∧
    (assembleReport incident intake triage root_cause corrective_actions
        notifications evidence t1).root_cause =
      (assembleReport incident intake triage root_cause corrective_actions
        notifications evidence t2).root_cause ∧
    (assembleReport incident intake triage root_cause corrective_actions
        notifications evidence t1).corrective_actions =
      (assembleReport incident intake triage root_cause corrective_actions
        notifications evidence t2).corrective_actions ∧
    (assembleReport incident intake triage root_cause corrective_actions
        notifications evidence t1).notifications =
      (assembleReport incident intake triage root_cause corrective_actions
        notifications evidence t2).notifications ∧
    (assembleReport incident intake triage root_cause corrective_actions
        notifications evidence t1).evidence =
      (assembleReport incident intake triage root_cause corrective_actions
        notifications evidence t2).evidence :=
  ⟨rfl, rfl, rfl, rfl, rfl, rfl, rfl, rfl⟩

/-! ## CorrectiveActionAgent, from `agents/incident.py` lines 131-161

The vector store is an oracle `memQuery : String → Nat → List PolicyMatch`
(`VectorMemory.query(text=..., n_results=...)`, memory.py lines 46-68) and
the LLM call is an opaque `stage : String → Except String CorrectiveActionPlan`
(the pydantic-ai agent run on the built prompt). `plan` additionally
returns the trace of oracle invocations — one entry `(text, k)` per
`self._memory.query` call executed; the body contains exactly one call
site, executed unconditionally. The `enriched_refs` loop (lines 157-160)
copies `plan.policy_references` element by element, an identity, so the
returned plan is the stage output unchanged. -/

/-- One entry of the match list `VectorMemory.query` returns: the fields
the agent reads. `metadata` is reduced to its optional `"tag"` entry
(`item['metadata'].get('tag', 'policy')`); `id` is carried opaquely and
`distance` (a float the agent never reads) is omitted. -/
structure PolicyMatch where
  id : String
  document : String
  tag : Option String
  deriving DecidableEq, Repr

/-- Python `a or b` on two strings: the first unless it is empty. -/
def pyOrString (s d : String) : String :=
  if s = "" then d else s

/-- The composite query text of incident.py line 139:
`f"{report.description}\n{intake.narrative}\n{','.join(root_cause.primary_causes)}"`. -/
def correctiveQueryText (report : IncidentReport) (intake : IntakeSummary)
    (root_cause : RootCauseAnalysis) : String :=
  report.description ++ "\n" ++ intake.narrative ++ "\n"
    ++ String.intercalate "," root_cause.primary_causes

/-- One policy-context line (incident.py line 143):
`f"- {item['metadata'].get('tag', 'policy')}: {item['document']}"`. -/
def policyLine (m : PolicyMatch) : String :=
  "- " ++ m.tag.getD "policy" ++ ": " ++ m.document

/-- `policy_context` (incident.py lines 142-145): newline-joined lines. -/
def policyContext (ms : List PolicyMatch) : String :=
  String.intercalate "\n" (ms.map policyLine)

/-- The prompt of incident.py lines 146-152 up to and including the
`"Relevant policies:\n"` heading. -/
def correctivePromptPrefix (report : IncidentReport) (intake : IntakeSummary)
    (triage : TriageAssessment) (root_cause : RootCauseAnalysis) : String :=
  "Develop a corrective action plan."
    ++ "\n\nIncident summary: " ++ intake.narrative
    ++ "\nRoot causes: " ++ String.intercalate ", " root_cause.primary_causes
    ++ "\nContributing factors: "
    ++ pyOrString (String.intercalate ", " root_cause.contributing_factors) "None"
    ++ "\nTriage actions already underway: "
    ++ String.intercalate ", " triage.priority_actions
    ++ "\nRelevant policies:\n"

/-- The full prompt (incident.py lines 146-152): the policies section is
`policy_context or 'No policies found. Base recommendations on best practice.'`. -/
def correctivePrompt (report : IncidentReport) (intake : IntakeSummary)
    (triage : TriageAssessment) (root_cause : RootCauseAnalysis)
    (policy_context : String) : String :=
  correctivePromptPrefix report intake triage root_cause
    ++ pyOrString policy_context "No policies found. Base recommendations on best practice."

/-- `CorrectiveActionAgent.plan` (incident.py lines 131-161), paired with
the trace of vector-store queries it performs. -/
def CorrectiveActionAgent.plan (memQuery : String → Nat → List PolicyMatch)
    (stage : String → Except String CorrectiveActionPlan)
    (report : IncidentReport) (intake : IntakeSummary)
    (triage : TriageAssessment) (root_cause : RootCauseAnalysis) :
    Except String CorrectiveActionPlan × List (String × Nat) :=
  (stage (correctivePrompt report intake triage root_cause
      (policyContext (memQuery (correctiveQueryText report intake root_cause) 4))),
   [(correctiveQueryText report intake root_cause, 4)])

/-- C7: the corrective-action stage queries the PolicyIndex exactly once —
the trace is the single pair of the composite text (report description,
intake narrative, comma-joined primary causes) and `k = 4`; each returned
match is rendered as a line carrying `"<tag>: <text>"` (with the `"- "`
bullet), the lines newline-joined into the stage's request context; and an
empty match set makes the stage function receive the explicit
"no policies found" placeholder, not an empty string and not an error. -/
theorem C7_corrective_policy_query (memQuery : String → Nat → List PolicyMatch)
    (stage : String → Except String CorrectiveActionPlan)
    (report : IncidentReport) (intake : IntakeSummary)
    (triage : TriageAssessment) (root_cause : RootCauseAnalysis) :
    (CorrectiveActionAgent.plan memQuery stage report intake triage root_cause).2 =
      [(report.description ++ "\n" ++ intake.narrative ++ "\n"
          ++ String.intercalate "," root_cause.primary_causes, 4)] ∧
    (∀ m : PolicyMatch,
      policyLine m = "- " ++ (m.tag.getD "policy" ++ ": " ++ m.document)) ∧
    policyContext (memQuery (correctiveQueryText report intake root_cause) 4) =
      String.intercalate "\n"
        ((memQuery (correctiveQueryText report intake root_cause) 4).map policyLine) ∧
    (CorrectiveActionAgent.plan memQuery stage report intake triage root_cause).1 =
      stage (correctivePromptPrefix report intake triage root_cause ++
        pyOrString
          (policyContext (memQuery (correctiveQueryText report intake root_cause) 4))
          "No policies found. Base recommendations on best practice.") ∧
    (memQuery (correctiveQueryText report intake root_cause) 4 = [] →
      (CorrectiveActionAgent.plan memQuery stage report intake triage root_cause).1 =
        stage (correctivePromptPrefix report intake triage root_cause ++
          "No policies found. Base recommendations on best practice.")) := by
  refine ⟨rfl, ?_, rfl, rfl, ?_⟩
  · intro m
    simp [policyLine, String.append_assoc]
  · intro hempty
    simp [CorrectiveActionAgent.plan, correctivePrompt, hempty, policyContext,
      String.intercalate, pyOrString]

/-- C7 witness: a concrete run whose PolicyIndex query returns no match;
the stage function receives the full prompt ending in the explicit
placeholder line (no empty injection, no error). -/
theorem C7_corrective_policy_query_witness :
    (CorrectiveActionAgent.plan (fun _ _ => []) (fun s => .ok ⟨[s], [], [], []⟩)
        ⟨"T", "D", none, none, none, none, [], []⟩ ⟨"N", [], [], .low, 0⟩
        ⟨.low, [], false, [], "m", "r"⟩ ⟨["c"], [], []⟩).1 =
      .ok ⟨["Develop a corrective action plan.\n\nIncident summary: N\nRoot causes: c\nContributing factors: None\nTriage actions already underway: \nRelevant policies:\nNo policies found. Base recommendations on best practice."],
        [], [], []⟩ := by
  have h := (C7_corrective_policy_query (fun _ _ => [])
      (fun s => .ok ⟨[s], [], [], []⟩)
      ⟨"T", "D", none, none, none, none, [], []⟩ ⟨"N", [], [], .low, 0⟩
      ⟨.low, [], false, [], "m", "r"⟩ ⟨["c"], [], []⟩).2.2.2.2 rfl
  exact h.trans (by rfl)
